import Mathlib

/-!
Verification of the webhook reconciliation engine of the pretix-recurrente
payment plugin.  The definitions below are a shallow embedding of
`pretix_recurrente/utils.py` and `pretix_recurrente/views/webhooks.py`:
JSON payloads become an inductive `JValue`, the Django cache becomes an
association list threaded through the functions, and the webhook view
becomes a function from server state and payload to an HTTP status code
and a new server state.  Line numbers in comments refer to those two
source files.
-/

/-- JSON-like values as produced by `json.loads`.  An object is a sequence
of `objCons` cells ended by `objNil`, keeping all recursion structural.
Arrays do not occur in any code path the claims touch and are omitted. -/
inductive JValue where
  | str (s : String)
  | num (n : Int)
  | jbool (b : Bool)
  | null
  | objNil
  | objCons (k : String) (v : JValue) (rest : JValue)
deriving DecidableEq, Repr

/-- Python `d.get(key)` : first match wins, as in a dict; on anything that is
not a dict the source code guards with `isinstance(d, dict)`, so a `none`
result is faithful there. -/
def JValue.get : JValue → String → Option JValue
  | .objCons k v rest, key => if key = k then some v else rest.get key
  | _, _ => none

/-- Python `key in d`. -/
def JValue.hasKey (v : JValue) (key : String) : Bool :=
  (v.get key).isSome

/-- Python `isinstance(v, dict)`. -/
def JValue.isObj : JValue → Bool
  | .objNil => true
  | .objCons _ _ _ => true
  | _ => false

/-- Python truthiness of a JSON value: empty string, zero, False, None and
the empty dict are falsy. -/
def JValue.truthy : JValue → Bool
  | .str s => !s.isEmpty
  | .num n => n ≠ 0
  | .jbool b => b
  | .null => false
  | .objNil => false
  | .objCons _ _ _ => true

/-- Truthiness of an optional value (Python `None` is falsy). -/
def truthyOpt : Option JValue → Bool
  | some v => v.truthy
  | none => false

/-- Python `a or b` on optional JSON values: keeps `a` when truthy,
otherwise yields `b`. -/
def pyOr (a b : Option JValue) : Option JValue :=
  if truthyOpt a then a else b

/-- Replace the value of `key` in place, or append the pair at the end,
mirroring a Python dict update for a single key. -/
def JValue.setK : JValue → String → JValue → JValue
  | .objCons k w rest, key, v =>
      if key = k then .objCons k v rest else .objCons k w (rest.setK key v)
  | _, key, v => .objCons key v .objNil

/-- Python `str(v)` as used inside the f-strings building cache keys. -/
def pyStr : JValue → String
  | .str s => s
  | .num n => toString n
  | .jbool true => "True"
  | .jbool false => "False"
  | .null => "None"
  | .objNil => "\x7b\x7d"
  | .objCons _ _ _ => "\x7bdict\x7d"

/-- The normalized event record produced by `extract_recurrente_data`
(utils.py lines 203-387), restricted to the fields the webhook views read.
A `none` field models a key that is absent or bound to Python `None`. -/
structure ExtractedData where
  event_type : Option JValue
  external_checkout_id : Option JValue
  external_payment_id : Option JValue
  order_code : Option JValue
  payment_id_pretix : Option JValue
  event_slug : Option JValue
  organizer_slug : Option JValue
  amount_in_cents : Option JValue
  currency : Option JValue
  status_recurrente : Option JValue
  failure_reason : Option JValue
deriving DecidableEq, Repr

/-- All-`none` record: the `except` branch of the source returns `{}`,
whose every later `.get` yields `None`. -/
def ExtractedData.empty : ExtractedData :=
  ⟨none, none, none, none, none, none, none, none, none, none, none⟩

/-- Embedding of `extract_recurrente_data` (utils.py lines 203-387) for the
fields the claims touch.  The receipt/product/card formatting of lines
293-379 writes only fields no claim reads and is not modelled.  A non-dict
payload raises inside the `try` and the function returns `{}` (lines 385-387). -/
def extract_recurrente_data (webhook_data : JValue) : ExtractedData :=
  if ¬ webhook_data.isObj then ExtractedData.empty else
  -- line 219: event_type = webhook_data.get('event_type')
  let event_type := webhook_data.get "event_type"
  -- lines 223-224: checkout / payment objects with {} defaults
  let checkout := (webhook_data.get "checkout").getD JValue.objNil
  let payment_obj := (webhook_data.get "payment").getD JValue.objNil
  -- line 227: checkout id
  let checkout_id := if checkout.isObj then checkout.get "id" else none
  -- lines 232-238: payment id from payment.id, then checkout.payment.id
  let payment_id : Option JValue :=
    if payment_obj.isObj ∧ payment_obj.hasKey "id" then
      payment_obj.get "id"
    else if checkout.truthy ∧ checkout.isObj ∧ checkout.hasKey "payment" then
      let checkout_payment := (checkout.get "payment").getD JValue.objNil
      if checkout_payment.isObj ∧ checkout_payment.hasKey "id" then
        checkout_payment.get "id"
      else none
    else none
  -- lines 240-242: root id as last resort, only when payment_id is falsy
  let payment_id :=
    if ¬ truthyOpt payment_id ∧ webhook_data.hasKey "id" then
      webhook_data.get "id"
    else payment_id
  -- lines 248-252: metadata from checkout.metadata, else top-level metadata
  let metadata : Option JValue :=
    if checkout.truthy ∧ checkout.isObj ∧ checkout.hasKey "metadata" then
      some ((checkout.get "metadata").getD JValue.objNil)
    else if webhook_data.hasKey "metadata" then
      some ((webhook_data.get "metadata").getD JValue.objNil)
    else none
  -- lines 254-259: order correlation fields, only when metadata is a truthy dict
  let mdDict : Option JValue :=
    match metadata with
    | some m => if m.truthy ∧ m.isObj then some m else none
    | none => none
  let order_code := match mdDict with | some m => m.get "order_code" | none => none
  let payment_id_pretix := match mdDict with | some m => m.get "payment_id" | none => none
  let event_slug := match mdDict with | some m => m.get "event_slug" | none => none
  let organizer_slug := match mdDict with | some m => m.get "organizer_slug" | none => none
  -- lines 266-281: normalized status
  let status_checkout := if checkout.truthy ∧ checkout.isObj then checkout.get "status" else none
  let calculated_status : Option JValue :=
    if event_type = some (JValue.str "payment_intent.succeeded") then
      some (.str "succeeded")
    else if event_type = some (JValue.str "payment_intent.failed")
        ∨ event_type = some (JValue.str "payment_intent.canceled") then
      some (.str "failed")
    else none
  let status_recurrente := pyOr calculated_status (pyOr status_checkout (webhook_data.get "status"))
  { event_type := event_type
    external_checkout_id := checkout_id
    external_payment_id := payment_id
    order_code := order_code
    payment_id_pretix := payment_id_pretix
    event_slug := event_slug
    organizer_slug := organizer_slug
    amount_in_cents := webhook_data.get "amount_in_cents"
    currency := webhook_data.get "currency"
    status_recurrente := status_recurrente
    failure_reason := webhook_data.get "failure_reason" }

/-! ## Duplicate suppressor: cache model and `is_webhook_already_processed` -/

/-- The Django cache, modelled as an association list.  A fresh entry is
prepended and shadows older ones; `cacheDel` removes every binding of a key.
TTLs are not modelled: every claim concerns behaviour inside one TTL window. -/
abbrev Cache := List (String × JValue)

/-- `cache.get(key)` : `none` models a miss. -/
def cacheGet : Cache → String → Option JValue
  | [], _ => none
  | kv :: rest, key => if kv.1 = key then some kv.2 else cacheGet rest key

/-- `cache.set(key, value, timeout)`. -/
def cacheSet (c : Cache) (key : String) (v : JValue) : Cache :=
  (key, v) :: c

/-- `cache.add(key, value, timeout)` : atomic set-if-absent; returns whether
the entry was created. -/
def cacheAdd (c : Cache) (key : String) (v : JValue) : Bool × Cache :=
  match cacheGet c key with
  | some _ => (false, c)
  | none => (true, (key, v) :: c)

/-- `cache.delete(key)`. -/
def cacheDel : Cache → String → Cache
  | [], _ => []
  | kv :: rest, key => if kv.1 = key then cacheDel rest key else kv :: cacheDel rest key

/-- One hexadecimal digit. -/
def hexDigit (n : Nat) : Char :=
  if n < 10 then Char.ofNat (48 + n) else Char.ofNat (87 + n)

/-- Fold a string into a natural number (a deterministic mixing function). -/
def hashNat (s : String) : Nat :=
  s.data.foldl (fun h c => (h * 131 + c.toNat) % (16 ^ 32)) 7

/-- Modelled from the spec: `hashlib.md5(payload_str.encode()).hexdigest()`
(utils.py lines 460-463) is modelled as a deterministic 32-hex-character
digest of the canonical JSON encoding; only determinism and the fixed
32-character width matter for the properties proved here. -/
def md5Model (s : String) : String :=
  String.mk (((List.range 32).map (fun i => hexDigit ((hashNat s / 16 ^ i) % 16))))

/-- Insertion into a list of rendered key/value pairs, sorted by key
(`json.dumps(..., sort_keys=True)`). -/
def insertPair (p : String × String) : List (String × String) → List (String × String)
  | [] => [p]
  | q :: rest => if p.1 < q.1 then p :: q :: rest else q :: insertPair p rest

/-- Canonical JSON encoding: the encoded string together with the rendered
key/value pairs of an object, in one structural recursion. -/
def dumpsAux : JValue → String × List (String × String)
  | .str s => ("\"" ++ s ++ "\"", [])
  | .num n => (toString n, [])
  | .jbool true => ("true", [])
  | .jbool false => ("false", [])
  | .null => ("null", [])
  | .objNil => ("\x7b\x7d", [])
  | .objCons k v rest =>
      let pairs := (k, (dumpsAux v).1) :: (dumpsAux rest).2
      let sorted := pairs.foldl (fun acc p => insertPair p acc) []
      ("\x7b" ++ String.intercalate ", " (sorted.map (fun p => "\"" ++ p.1 ++ "\": " ++ p.2))
        ++ "\x7d", pairs)

/-- Canonical JSON encoding of a value, keys sorted, modelling
`json.dumps(payload, sort_keys=True)` (string escaping is not modelled). -/
def dumps (v : JValue) : String := (dumpsAux v).1

/-- The event type used by the duplicate suppressor:
`payload.get('event_type', payload.get('type', 'unknown'))` (utils.py line 424). -/
def dupEventType (payload : JValue) : JValue :=
  match payload.get "event_type" with
  | some v => v
  | none =>
    match payload.get "type" with
    | some v => v
    | none => .str "unknown"

/-- Walk a path of keys through nested dicts, `None` as soon as a key is
missing or the receiver is not a dict (utils.py lines 440-447). -/
def walkPath (payload : JValue) : List String → Option JValue
  | [] => some payload
  | key :: rest =>
      if payload.isObj ∧ payload.hasKey key then
        match payload.get key with
        | some v => walkPath v rest
        | none => none
      else none

/-- First truthy metadata dict among the candidate paths `checkout.metadata`,
`metadata`, `data.metadata`; the loop seeds `metadata = {}`
(utils.py lines 438-450). -/
def dupMetadata (payload : JValue) : JValue :=
  let try1 := walkPath payload ["checkout", "metadata"]
  let try2 := walkPath payload ["metadata"]
  let try3 := walkPath payload ["data", "metadata"]
  if truthyOpt try1 then try1.getD .objNil
  else if truthyOpt try2 then try2.getD .objNil
  else if truthyOpt try3 then try3.getD .objNil
  else .objNil

/-- The explicit-id part of the fingerprint (utils.py lines 427-434):
`id`, else `payment.id`, else `data.id`, else `checkout.id`; a bare
`'id' in payload` membership test takes the value even when it is falsy. -/
def explicitWebhookId (payload : JValue) : Option JValue :=
  if payload.hasKey "id" then payload.get "id"
  else
    let pobj := (payload.get "payment").getD .null
    if payload.hasKey "payment" ∧ pobj.isObj ∧ pobj.hasKey "id" then pobj.get "id"
    else
      let dobj := (payload.get "data").getD .null
      if payload.hasKey "data" ∧ dobj.isObj ∧ dobj.hasKey "id" then dobj.get "id"
      else
        let cobj := (payload.get "checkout").getD .null
        if payload.hasKey "checkout" ∧ cobj.isObj then cobj.get "id"
        else none

/-- The composite fingerprint fallback (utils.py lines 437-456):
order-code + payment-id + event-type from the metadata walk, when both
correlation fields are truthy. -/
def compositeWebhookId (payload : JValue) : Option JValue :=
  let metadata := dupMetadata payload
  let order_code := metadata.get "order_code"
  let payment_id := metadata.get "payment_id"
  if truthyOpt order_code ∧ truthyOpt payment_id then
    some (.str (pyStr (optJ order_code) ++ "_" ++ pyStr (optJ payment_id)
      ++ "_" ++ pyStr (dupEventType payload)))
  else none
where
  /-- Unwrap with null default. -/
  optJ (o : Option JValue) : JValue := o.getD .null

/-- The webhook fingerprint id (utils.py lines 422-463): an explicit id,
else the composite string, else the digest of the whole payload. -/
def webhookIdOf (payload : JValue) : JValue :=
  let wid0 := explicitWebhookId payload
  -- lines 437-456: the composite is attempted only when no truthy id was found
  let wid1 : Option JValue :=
    if truthyOpt wid0 then wid0
    else
      match compositeWebhookId payload with
      | some w => some w
      | none => wid0
  -- lines 459-463: content digest as last resort
  if truthyOpt wid1 then wid1.getD .null
  else .str (md5Model (dumps payload))

/-- The duplicate-suppression cache key (utils.py line 471). -/
def webhookCacheKey (payload : JValue) : String :=
  "recurrente_webhook_processed_" ++ pyStr (webhookIdOf payload) ++ "_"
    ++ pyStr (dupEventType payload)

/-- Embedding of `is_webhook_already_processed` (utils.py lines 410-480):
returns whether the webhook was seen before, and the cache after the call
(marking it seen for 24 hours when it was not). -/
def is_webhook_already_processed (c : Cache) (payload : JValue) : Bool × Cache :=
  let wid := webhookIdOf payload
  -- line 466: defensive check, unreachable because the digest is nonempty
  if ¬ wid.truthy then (false, c)
  else
    let key := webhookCacheKey payload
    if truthyOpt (cacheGet c key) then (true, c)
    else (false, cacheSet c key (.jbool true))

/-! ## Payment records and `safe_confirm_payment` -/

/-- The lifecycle states of a pretix `OrderPayment`. -/
inductive PState where
  | created
  | pending
  | confirmed
  | canceled
  | failed
  | refunded
deriving DecidableEq, Repr

/-- A local payment record: primary key, owning order code, provider,
state, creation ordinal (for `latest('created')`), and the parsed
`info_data` dict.  The serialized `info` column is `dumps infoData`. -/
structure Payment where
  pk : Nat
  order : String
  provider : String
  state : PState
  created : Nat
  infoData : JValue
deriving DecidableEq, Repr

/-- The per-payment confirmation lock key (utils.py line 514). -/
def lockKeyOf (payment : Payment) : String :=
  "recurrente_payment_confirmation_lock_" ++ toString payment.pk

/-- Timestamp sentinel: `datetime.now().isoformat()` and friends are
modelled by a fixed string, since no claim depends on clock values. -/
def nowIso : String := "2025-01-01T00:00:00"

/-- The `info_data` enrichment performed under the lock (utils.py lines
610-761), restricted to the fields written unconditionally; the receipt,
card, customer and commerce extraction of lines 623-761 writes only
fields no claim reads and is not modelled. -/
def confirmEnrich (infoData : JValue) (payment_id : Option JValue) : JValue :=
  -- lines 616-621
  let d := infoData.setK "confirmed_at" (.str nowIso)
  let d := d.setK "estado" (.str "Confirmado")
  let d := d.setK "status" (.str "succeeded")
  let d := d.setK "last_update_source" (.str "safe_confirm_payment")
  -- lines 686-687
  if truthyOpt payment_id then d.setK "payment_id" (payment_id.getD .null) else d

/-- Embedding of `safe_confirm_payment` (utils.py lines 482-836) for a single
caller; `refresh_from_db` re-reads the same record here (the concurrent
interleavings are modelled separately below).  `confirmOk` is the host
oracle: `true` means `payment.confirm()` succeeds, `false` means it raises
(e.g. `Quota.QuotaExceededException`), caught at line 813.  Returns the
result, the record after the call, and the cache after the call. -/
def safe_confirm_payment (c : Cache) (payment : Payment) (payment_id : Option JValue)
    (confirmOk : Bool) : Bool × Payment × Cache :=
  -- lines 500-503: already confirmed is an idempotent success
  if payment.state = .confirmed then (true, payment, c)
  -- lines 506-508: only pending or created can be confirmed
  else if ¬ (payment.state = .pending ∨ payment.state = .created) then (false, payment, c)
  else
    let lock_key := lockKeyOf payment
    -- line 516: acquire the 30-second lock, atomic set-if-absent
    match cacheAdd c lock_key (.str "locked") with
    | (false, c1) =>
        -- lines 518-527: contention; wait, re-read, succeed only if confirmed
        if payment.state = .confirmed then (true, payment, c1) else (false, payment, c1)
    | (true, c1) =>
        -- line 531 refresh, lines 534-536 re-check under the lock
        if ¬ (payment.state = .pending ∨ payment.state = .created) then
          (false, payment, cacheDel c1 lock_key)
        else
          -- lines 538-770: enrich and persist info_data
          let p1 := { payment with infoData := confirmEnrich payment.infoData payment_id }
          if confirmOk then
            -- lines 772-808: host confirm inside a transaction, then markers
            let p2 := { p1 with state := .confirmed }
            let d := (p2.infoData.setK "confirmed_by_webhook" (.jbool true)).setK
              "confirmed_at_webhook" (.str nowIso)
            let d := (d.setK "confirmation_success" (.jbool true)).setK "estado" (.str "Confirmado")
            (true, { p2 with infoData := d }, cacheDel c1 lock_key)
          else
            -- lines 813-829: confirm raised; record the error, return failure
            let d := (p1.infoData.setK "confirmation_error" (.str "QuotaExceededException")).setK
              "confirmation_error_time" (.str nowIso)
            let d := d.setK "estado" (.str "Error en confirmación")
            (false, { p1 with infoData := d }, cacheDel c1 lock_key)

/-! ## The tenant-scoped webhook endpoint -/

/-- Server state seen by the endpoint: the tenant event is fixed, `orders`
holds the codes of its orders, `payments` all payment rows, `cache` the
shared cache. -/
structure SState where
  orders : List String
  payments : List Payment
  cache : Cache
deriving DecidableEq

/-- The payments of one order for this provider
(`order.payments.filter(provider='recurrente')`). -/
def recPaymentsOf (ps : List Payment) (order : String) : List Payment :=
  ps.filter (fun p => p.order == order && p.provider == "recurrente")

/-- `latest('created')` : the row with the greatest creation ordinal,
`none` when the queryset is empty (`DoesNotExist`). -/
def latestCreated (ps : List Payment) : Option Payment :=
  ps.foldl (fun acc p =>
    match acc with
    | none => some p
    | some q => if q.created < p.created then some p else some q) none

/-- Lower-casing for the case-insensitive `info__icontains` lookup. -/
def toLowerStr (s : String) : String := String.mk (s.data.map Char.toLower)

/-- Substring test on character lists. -/
def isInfixB (needle hay : List Char) : Bool :=
  (List.range (hay.length + 1)).any (fun i => needle.isPrefixOf (hay.drop i))

/-- Django `info__icontains=needle` : case-insensitive containment in the
serialized `info` column. -/
def infoContains (payment : Payment) (needle : String) : Bool :=
  isInfixB (toLowerStr needle).data (toLowerStr (dumps payment.infoData)).data

/-- `filter(info__icontains=needle)` over a queryset. -/
def filterInfoContains (ps : List Payment) (needle : String) : List Payment :=
  ps.filter (fun p => infoContains p needle)

/-- `filter(state=...)` over a queryset. -/
def filterState (ps : List Payment) (s : PState) : List Payment :=
  ps.filter (fun p => p.state = s)

/-- Persist a mutated payment row back into the table. -/
def savePayment (ps : List Payment) (p : Payment) : List Payment :=
  ps.map (fun q => if q.pk = p.pk then p else q)

/-- An optional Python value as stored into a dict (`None` becomes null). -/
def optToJ (o : Option JValue) : JValue := o.getD .null

/-- The succeeded-branch payment locator (webhooks.py lines 134-193):
by checkout id in `info`, then by payment id in `info`, then the latest
pending payment, then the latest payment of the provider regardless of
state; each step only when the previous found nothing. -/
def locateSucceeded (opayments : List Payment) (checkout_id payment_id : Option JValue) :
    Option Payment :=
  let step1 := if truthyOpt checkout_id then
      latestCreated (filterInfoContains opayments (pyStr (optToJ checkout_id)))
    else none
  let step2 := fun (_ : Unit) => if truthyOpt payment_id then
      latestCreated (filterInfoContains opayments (pyStr (optToJ payment_id)))
    else none
  let step3 := fun (_ : Unit) => latestCreated (filterState opayments .pending)
  let step4 := fun (_ : Unit) => latestCreated opayments
  ((step1.orElse step2).orElse step3).orElse step4

/-- The failed-branch payment locator (webhooks.py lines 244-258): by
checkout id — an absent checkout id degenerates to the empty needle, which
matches every row — then the latest pending payment. -/
def locateFailed (opayments : List Payment) (checkout_id : Option JValue) : Option Payment :=
  let needle := if truthyOpt checkout_id then pyStr (optToJ checkout_id) else ""
  (latestCreated (filterInfoContains opayments needle)).orElse
    (fun _ => latestCreated (filterState opayments .pending))

/-- The info update of the succeeded branch before confirmation
(webhooks.py lines 200-218). -/
def succeededInfoUpdate (infoData : JValue) (checkout_id payment_id : Option JValue)
    (event_type : Option JValue) (payload : JValue) : JValue :=
  let d := infoData.setK "checkout_id" (optToJ checkout_id)
  let d := d.setK "payment_id" (optToJ payment_id)
  let d := d.setK "payment_status" (.str "completed")
  let d := d.setK "webhook_received" (.jbool true)
  let d := d.setK "webhook_event_type" (optToJ event_type)
  let d := d.setK "estado" (.str "Recibiendo confirmación")
  -- line 209: data.get('event_id', '') — the extracted dict has no event_id key
  let d := d.setK "webhook_id" (.str "")
  let d := d.setK "webhook_received_at" (.str nowIso)
  d.setK "full_webhook_payload" payload

/-- The info update of the failed branch (webhooks.py lines 262-270). -/
def failedInfoUpdate (infoData : JValue) (checkout_id payment_id : Option JValue)
    (failure_reason : JValue) (event_type : Option JValue) : JValue :=
  let d := infoData.setK "checkout_id" (optToJ checkout_id)
  let d := d.setK "payment_id" (optToJ payment_id)
  let d := d.setK "payment_status" (.str "failed")
  let d := d.setK "failure_reason" failure_reason
  let d := d.setK "webhook_received" (.jbool true)
  d.setK "webhook_event_type" (optToJ event_type)

/-- Embedding of the tenant-scoped `webhook` view (webhooks.py lines 36-285)
on an already-parsed payload, along the path with no webhook secret
configured (signature verification is skipped, lines 80-92).  Returns the
HTTP status code and the new server state.  `confirmOk` is the host
confirm oracle passed through to `safe_confirm_payment`. -/
def webhook (st : SState) (payload : JValue) (confirmOk : Bool) : Nat × SState :=
  -- line 95: data = extract_recurrente_data(payload)
  let data := extract_recurrente_data payload
  let event_type := data.event_type
  let order_code := data.order_code
  -- line 101: data.get('checkout', {}) — the extracted dict has no checkout
  -- key, so this is always the empty dict
  let checkout_data_obj := JValue.objNil
  -- lines 105-107: reject when no order code was extracted
  if ¬ truthyOpt order_code then (400, st)
  else
    -- lines 109-112: duplicate suppression
    let dup := is_webhook_already_processed st.cache payload
    if dup.1 then (200, { st with cache := dup.2 })
    else
      let st1 : SState := { st with cache := dup.2 }
      -- lines 115-120: order lookup by code within the tenant
      let ocStr := pyStr (optToJ order_code)
      if ¬ st1.orders.contains ocStr then (404, st1)
      else
        let opayments := recPaymentsOf st1.payments ocStr
        -- lines 123-233: succeeded branch
        if event_type = some (.str "payment_intent.succeeded")
            ∨ event_type = some (.str "checkout.completed") then
          -- lines 128-130: ids re-read from the extracted dict, which has
          -- neither a payment object nor an id key, so both are None
          let checkout_id := checkout_data_obj.get "id"
          let payment_id : Option JValue := none
          match locateSucceeded opayments checkout_id payment_id with
          | none => (404, st1)
          | some payment =>
            -- lines 196-198: already confirmed is acknowledged untouched
            if payment.state = .confirmed then (200, st1)
            else
              -- lines 200-218: stash webhook data into info and save
              let p1 := { payment with
                infoData := succeededInfoUpdate payment.infoData checkout_id payment_id
                  event_type payload }
              let payments1 := savePayment st1.payments p1
              -- lines 221-226: confirm under the lock
              let r := safe_confirm_payment st1.cache p1 payment_id confirmOk
              let st2 : SState := { st1 with
                payments := savePayment payments1 r.2.1, cache := r.2.2 }
              -- lines 228-233: 200 on success, 500 otherwise
              if r.1 then (200, st2) else (500, st2)
        -- lines 235-276: failed branch
        else if event_type = some (.str "payment.failed")
            ∨ event_type = some (.str "checkout.expired")
            ∨ event_type = some (.str "payment_intent.payment_failed") then
          let checkout_id := checkout_data_obj.get "id"
          let payment_id : Option JValue := none
          -- line 242: the extracted dict always carries the failure_reason
          -- key, so the defaults of the .get chain are dead
          let failure_reason := optToJ data.failure_reason
          match locateFailed opayments checkout_id with
          | none => (404, st1)
          | some payment =>
            -- lines 261-274: overwrite to Failed unless already Failed
            if ¬ (payment.state = .failed) then
              let p1 := { payment with
                state := .failed,
                infoData := failedInfoUpdate payment.infoData checkout_id payment_id
                  failure_reason event_type }
              (200, { st1 with payments := savePayment st1.payments p1 })
            else (200, st1)
        -- lines 279-281: unhandled event types are acknowledged
        else (200, st1)

/-! ## Two concurrent callers of `safe_confirm_payment`

The concurrent behaviour is modelled as an interleaving of atomic steps of
two callers over the shared lock entry and payment row, following the
source line by line; `cache.add` is the atomic set-if-absent it is on a
shared cache backend, and the host `confirm()` is assumed to succeed (the
spec scenario: two simultaneous confirm attempts for one pending payment). -/

/-- Program counter of one caller inside `safe_confirm_payment`. -/
inductive TPC where
  /-- lines 500-508: the precondition reads. -/
  | entry
  /-- line 516: `cache.add` on the lock key. -/
  | addLock
  /-- lines 518-527: contention path: sleep, re-read, return. -/
  | contRecheck
  /-- lines 531-536: re-read and re-check under the lock. -/
  | heldRecheck
  /-- lines 538-770: info enrichment and save (no state change). -/
  | enrichSave
  /-- lines 772-785: the host confirm call inside the transaction. -/
  | doConfirm
  /-- lines 834-836: release the lock, then return `true`. -/
  | releaseT
  /-- lines 834-836: release the lock, then return `false`. -/
  | releaseF
  /-- returned. -/
  | finished
deriving DecidableEq, Repr

/-- A configuration of the interleaved system: the lock entry, the payment
state, how many host `confirm()` calls happened, and each caller's program
counter and result. -/
structure CConfig where
  lock : Bool
  pstate : PState
  confirms : Nat
  pcA : TPC
  resA : Option Bool
  pcB : TPC
  resB : Option Bool
deriving DecidableEq, Repr

/-- One atomic step of a caller: from the shared state and its program
counter to new shared state, new counter, and a result when it returns. -/
def threadStep (lock : Bool) (ps : PState) (cf : Nat) (pc : TPC) :
    Bool × PState × Nat × TPC × Option Bool :=
  match pc with
  | .entry =>
      -- lines 500-503 / 506-508
      if ps = .confirmed then (lock, ps, cf, .finished, some true)
      else if ¬ (ps = .pending ∨ ps = .created) then (lock, ps, cf, .finished, some false)
      else (lock, ps, cf, .addLock, none)
  | .addLock =>
      -- line 516: atomic set-if-absent
      if lock then (lock, ps, cf, .contRecheck, none)
      else (true, ps, cf, .heldRecheck, none)
  | .contRecheck =>
      -- lines 518-527
      if ps = .confirmed then (lock, ps, cf, .finished, some true)
      else (lock, ps, cf, .finished, some false)
  | .heldRecheck =>
      -- lines 531-536
      if ¬ (ps = .pending ∨ ps = .created) then (lock, ps, cf, .releaseF, none)
      else (lock, ps, cf, .enrichSave, none)
  | .enrichSave => (lock, ps, cf, .doConfirm, none)
  | .doConfirm =>
      -- lines 772-785: the one host confirm call; it succeeds
      (lock, .confirmed, cf + 1, .releaseT, none)
  | .releaseT => (false, ps, cf, .finished, some true)
  | .releaseF => (false, ps, cf, .finished, some false)
  | .finished => (lock, ps, cf, .finished, none)

/-- Step of caller A, when it has not returned yet. -/
def stepA (c : CConfig) : Option CConfig :=
  if c.pcA = .finished then none
  else
    let s := threadStep c.lock c.pstate c.confirms c.pcA
    some { lock := s.1, pstate := s.2.1, confirms := s.2.2.1, pcA := s.2.2.2.1,
           resA := match s.2.2.2.2 with | some r => some r | none => c.resA,
           pcB := c.pcB, resB := c.resB }

/-- Step of caller B, when it has not returned yet. -/
def stepB (c : CConfig) : Option CConfig :=
  if c.pcB = .finished then none
  else
    let s := threadStep c.lock c.pstate c.confirms c.pcB
    some { lock := s.1, pstate := s.2.1, confirms := s.2.2.1, pcB := s.2.2.2.1,
           resB := match s.2.2.2.2 with | some r => some r | none => c.resB,
           pcA := c.pcA, resA := c.resA }

/-- All successors of a configuration under the interleaving scheduler. -/
def succsC (c : CConfig) : List CConfig :=
  (stepA c).toList ++ (stepB c).toList

/-- All terminal configurations reachable within the fuel bound; `none` when
the fuel does not suffice, so a `some` answer covers every interleaving. -/
def runAll : Nat → CConfig → Option (List CConfig)
  | 0, _ => none
  | n + 1, c =>
      if c.pcA = .finished ∧ c.pcB = .finished then some [c]
      else
        (succsC c).foldl
          (fun acc d =>
            match acc, runAll n d with
            | some l, some l2 => some (l ++ l2)
            | _, _ => none)
          (some [])

/-- Both callers start at the precondition reads of a pending payment,
with the lock free. -/
def c9Init : CConfig :=
  { lock := false, pstate := .pending, confirms := 0,
    pcA := .entry, resA := none, pcB := .entry, resB := none }

/-- Every terminal configuration of every interleaving, fuel 16 (each
caller takes at most 7 steps). -/
def c9Terminals : Option (List CConfig) := runAll 16 c9Init

/-! ## Concrete scenario: one order with one payment -/

/-- A succeeded notification correlating to order ORDER1, payment 7. -/
def samplePayload : JValue :=
  .objCons "event_type" (.str "payment_intent.succeeded")
    (.objCons "checkout"
      (.objCons "id" (.str "ch_abc")
        (.objCons "metadata"
          (.objCons "order_code" (.str "ORDER1")
            (.objCons "payment_id" (.str "7") .objNil))
          .objNil))
      .objNil)

/-- The same notification as a failed event. -/
def sampleFailedPayload : JValue :=
  .objCons "event_type" (.str "payment.failed")
    (.objCons "checkout"
      (.objCons "id" (.str "ch_abc")
        (.objCons "metadata"
          (.objCons "order_code" (.str "ORDER1")
            (.objCons "payment_id" (.str "7") .objNil))
          .objNil))
      .objNil)

/-- A pending payment for ORDER1 holding its checkout id. -/
def samplePendingPayment : Payment :=
  ⟨7, "ORDER1", "recurrente", .pending, 1, .objCons "checkout_id" (.str "ch_abc") .objNil⟩

/-- The same payment already confirmed. -/
def sampleConfirmedPayment : Payment :=
  ⟨7, "ORDER1", "recurrente", .confirmed, 1, .objCons "checkout_id" (.str "ch_abc") .objNil⟩

/-- Server with ORDER1 and its pending payment, empty cache. -/
def sampleState : SState := ⟨["ORDER1"], [samplePendingPayment], []⟩

/-- Server with ORDER1 and its confirmed payment, empty cache. -/
def sampleConfirmedState : SState := ⟨["ORDER1"], [sampleConfirmedPayment], []⟩


/-! ## Helper lemmas about the cache model -/

/-- Setting a key makes it immediately visible. -/
theorem cacheGet_cacheSet_self (c : Cache) (k : String) (v : JValue) :
    cacheGet (cacheSet c k v) k = some v := by
  simp [cacheGet, cacheSet]

/-- Deleting a key removes every binding of it. -/
theorem cacheGet_cacheDel_self (c : Cache) (k : String) :
    cacheGet (cacheDel c k) k = none := by
  induction c with
  | nil => rfl
  | cons kv rest ih =>
      by_cases hk : kv.1 = k
      · simpa [cacheDel, hk] using ih
      · simpa [cacheDel, cacheGet, hk] using ih

/-- Other keys survive a deletion. -/
theorem cacheGet_cacheDel_other (c : Cache) (k k2 : String) (h : k2 ≠ k) :
    cacheGet (cacheDel c k) k2 = cacheGet c k2 := by
  induction c with
  | nil => rfl
  | cons kv rest ih =>
      by_cases hk : kv.1 = k
      · simp [cacheDel, hk, cacheGet, Ne.symm h, ih]
      · simp [cacheDel, hk, cacheGet, ih]

/-- Other keys survive an insertion. -/
theorem cacheGet_cacheSet_other (c : Cache) (k k2 : String) (v : JValue) (h : k2 ≠ k) :
    cacheGet (cacheSet c k v) k2 = cacheGet c k2 := by
  simp [cacheGet, cacheSet, Ne.symm h]

/-! ## Claims C4 and C5: the confirm primitive's guard and its lock -/

/-- C4: `safe_confirm_payment` returns success immediately and without
mutating the record or the cache when the payment is already Confirmed, and
returns failure without mutation when the payment is in any state other
than Pending, Created or Confirmed. -/
theorem c4_confirm_guard (c : Cache) (p : Payment) (pid : Option JValue) (ok : Bool) :
    (p.state = .confirmed → safe_confirm_payment c p pid ok = (true, p, c)) ∧
    (p.state ≠ .pending ∧ p.state ≠ .created ∧ p.state ≠ .confirmed →
      safe_confirm_payment c p pid ok = (false, p, c)) := by
  constructor
  · intro h
    simp [safe_confirm_payment, h]
  · rintro ⟨h1, h2, h3⟩
    simp [safe_confirm_payment, h1, h2, h3]

/-- Witness for C4 at a Confirmed and at a Canceled payment. -/
theorem c4_confirm_guard_witness :
    safe_confirm_payment [] ⟨1, "O1", "recurrente", .confirmed, 1, .objNil⟩ none true
      = (true, ⟨1, "O1", "recurrente", .confirmed, 1, .objNil⟩, []) ∧
    safe_confirm_payment [] ⟨2, "O1", "recurrente", .canceled, 1, .objNil⟩ none true
      = (false, ⟨2, "O1", "recurrente", .canceled, 1, .objNil⟩, []) :=
  ⟨(c4_confirm_guard [] ⟨1, "O1", "recurrente", .confirmed, 1, .objNil⟩ none true).1 rfl,
   (c4_confirm_guard [] ⟨2, "O1", "recurrente", .canceled, 1, .objNil⟩ none true).2
     (by decide)⟩

/-- C5: when the confirmation lock for the payment is free on entry — so
that any acquisition in the call is this caller's — the lock entry is
absent from the cache on return, on the success, failure and exception
exit paths alike. -/
theorem c5_lock_always_released (c : Cache) (p : Payment) (pid : Option JValue) (ok : Bool)
    (h : cacheGet c (lockKeyOf p) = none) :
    cacheGet (safe_confirm_payment c p pid ok).2.2 (lockKeyOf p) = none := by
  unfold safe_confirm_payment
  by_cases h1 : p.state = .confirmed
  · simp [h1, h]
  · by_cases h2 : p.state = .pending ∨ p.state = .created
    · cases ok <;> simp [h1, h2, cacheAdd, h, cacheGet_cacheDel_self]
    · simp [h1, h2, h]

/-- Witness for C5 on the exception path of a pending payment. -/
theorem c5_lock_always_released_witness :
    cacheGet [] (lockKeyOf ⟨7, "O1", "recurrente", .pending, 1, .objNil⟩) = none ∧
    cacheGet
      (safe_confirm_payment [] ⟨7, "O1", "recurrente", .pending, 1, .objNil⟩ none false).2.2
      (lockKeyOf ⟨7, "O1", "recurrente", .pending, 1, .objNil⟩) = none :=
  ⟨rfl, c5_lock_always_released [] ⟨7, "O1", "recurrente", .pending, 1, .objNil⟩ none false rfl⟩

/-! ## Claim C9: two simultaneous confirm attempts -/

set_option maxRecDepth 100000 in
/-- C9: over every interleaving of two simultaneous `safe_confirm_payment`
callers on the same Pending payment, the host-level `confirm()` primitive
is invoked exactly once, the payment ends Confirmed, and both callers
return normally (a boolean result each, no escaping exception). -/
theorem c9_concurrent_confirm_once :
    c9Terminals.isSome ∧ c9Terminals.getD [] ≠ [] ∧
    ∀ c ∈ c9Terminals.getD [],
      c.confirms = 1 ∧ c.pstate = .confirmed ∧ c.resA.isSome ∧ c.resB.isSome := by
  refine ⟨by decide, by decide, ?_⟩
  decide

set_option maxRecDepth 100000 in
/-- Witness for C9 at the terminal configuration of the serial schedule
(caller A runs to completion, then caller B observes the confirmed state). -/
theorem c9_concurrent_confirm_once_witness :
    (⟨false, .confirmed, 1, .finished, some true, .finished, some true⟩ : CConfig)
      ∈ c9Terminals.getD [] ∧
    (1 : Nat) = 1 ∧ PState.confirmed = .confirmed ∧
      (some true : Option Bool).isSome ∧ (some true : Option Bool).isSome :=
  ⟨by decide,
   c9_concurrent_confirm_once.2.2 ⟨false, .confirmed, 1, .finished, some true, .finished, some true⟩
     (by decide)⟩

/-! ## Claims C6 and C10: the fingerprint cache entry -/

/-- A truthy optional value stays truthy after unwrapping. -/
theorem truthy_getD_of_truthyOpt (o : Option JValue) (h : truthyOpt o = true) :
    (o.getD .null).truthy = true := by
  cases o
  · simp [truthyOpt] at h
  · simpa [truthyOpt] using h

/-- The digest model always produces 32 characters. -/
theorem md5Model_length (s : String) : (md5Model s).length = 32 := by
  simp [md5Model, String.length_mk]

/-- The digest model never produces the empty string. -/
theorem md5Model_not_empty (s : String) : (md5Model s).isEmpty = false := by
  cases hE : (md5Model s).isEmpty
  · rfl
  · have h1 : md5Model s = "" := (String.isEmpty_iff _).1 hE
    have h2 := md5Model_length s
    rw [h1] at h2
    simp at h2

/-- A string with embedded separators is never empty. -/
theorem sep_append_not_empty (a b c : String) :
    (a ++ "_" ++ b ++ "_" ++ c).isEmpty = false := by
  cases hE : (a ++ "_" ++ b ++ "_" ++ c).isEmpty
  · rfl
  · have h1 : a ++ "_" ++ b ++ "_" ++ c = "" := (String.isEmpty_iff _).1 hE
    have h2 := congrArg String.length h1
    rw [String.length_append, String.length_append, String.length_append,
      String.length_append] at h2
    simp only [show ("_" : String).length = 1 from rfl,
      show ("" : String).length = 0 from rfl] at h2
    omega

/-- A composite fingerprint, when produced, is a string of the shape
order-code, separator, payment-id, separator, event-type. -/
theorem compositeWebhookId_shape (p : JValue) (w : JValue)
    (h : compositeWebhookId p = some w) :
    ∃ a b c, w = .str (a ++ "_" ++ b ++ "_" ++ c) := by
  simp only [compositeWebhookId] at h
  split at h
  · exact ⟨_, _, _, (Option.some.inj h).symm⟩
  · exact absurd h (by simp)

/-- The fingerprint id is always truthy: an explicit id is taken only when
truthy, the composite contains separators, and the digest is nonempty. -/
theorem webhookIdOf_truthy (p : JValue) : (webhookIdOf p).truthy = true := by
  unfold webhookIdOf
  by_cases h1 : truthyOpt (explicitWebhookId p)
  · simp [h1, truthy_getD_of_truthyOpt _ h1]
  · simp only [h1, if_false, Bool.false_eq_true]
    cases hc : compositeWebhookId p with
    | none =>
        simp [h1, JValue.truthy, md5Model_not_empty]
    | some w =>
        obtain ⟨a, b, c, rfl⟩ := compositeWebhookId_shape p w hc
        have ht : truthyOpt (some (JValue.str (a ++ "_" ++ b ++ "_" ++ c))) = true := by
          simp [truthyOpt, JValue.truthy, sep_append_not_empty]
        simp [ht, truthyOpt, JValue.truthy, sep_append_not_empty]

/-- The duplicate check, written out: the fingerprint id is always truthy,
so the check is a plain test-and-set on the cache key. -/
theorem is_webhook_already_processed_eq (c : Cache) (p : JValue) :
    is_webhook_already_processed c p =
      if truthyOpt (cacheGet c (webhookCacheKey p)) then (true, c)
      else (false, cacheSet c (webhookCacheKey p) (.jbool true)) := by
  unfold is_webhook_already_processed
  simp [webhookIdOf_truthy p]

/-- C6 (amended): the fingerprint entry is written by the duplicate check
itself, before any processing outcome is known: a second check on the cache
produced by a first check always reports the webhook as already processed. -/
theorem c6_fingerprint_set_at_check_time (c : Cache) (p : JValue) :
    (is_webhook_already_processed (is_webhook_already_processed c p).2 p).1 = true := by
  rw [is_webhook_already_processed_eq c p]
  by_cases h : truthyOpt (cacheGet c (webhookCacheKey p)) = true
  · rw [if_pos h, is_webhook_already_processed_eq, if_pos h]
  · rw [if_neg h, is_webhook_already_processed_eq, cacheGet_cacheSet_self]
    simp [truthyOpt, JValue.truthy]

/-- Data length and string length agree. -/
theorem string_data_length (s : String) : s.data.length = s.length := by
  cases s
  rfl

/-- Cancellation for string append when the left parts have equal length. -/
theorem append_len_inj (a1 a2 b1 b2 : String) (hlen : a1.length = a2.length)
    (h : a1 ++ b1 = a2 ++ b2) : b1 = b2 := by
  have hd := congrArg String.data h
  rw [String.data_append, String.data_append] at hd
  have hl : a1.data.length = a2.data.length := by
    rw [string_data_length, string_data_length, hlen]
  obtain ⟨h1, h2⟩ := List.append_inj hd hl
  exact String.ext h2

/-- Lookup skips a head field with a different key. -/
theorem get_objCons_ne (k key : String) (v rest : JValue) (h : key ≠ k) :
    (JValue.objCons k v rest).get key = rest.get key := by
  simp [JValue.get, h]

/-- Lookup finds the head field. -/
theorem get_objCons_self (k : String) (v rest : JValue) :
    (JValue.objCons k v rest).get k = some v := by
  simp [JValue.get]

/-- The fingerprint event type of a payload with a leading event_type
field is that field's value. -/
theorem dupEventType_objCons (q v : JValue) :
    dupEventType (.objCons "event_type" v q) = v := by
  simp [dupEventType, JValue.get]

/-- The explicit-id chain never reads the event_type field. -/
theorem explicitWebhookId_congr (q v w : JValue) :
    explicitWebhookId (.objCons "event_type" v q)
      = explicitWebhookId (.objCons "event_type" w q) := by
  have hid : ("id" : String) ≠ "event_type" := by decide
  have hpay : ("payment" : String) ≠ "event_type" := by decide
  have hdata : ("data" : String) ≠ "event_type" := by decide
  have hco : ("checkout" : String) ≠ "event_type" := by decide
  simp [explicitWebhookId, JValue.get, JValue.hasKey, hid, hpay, hdata, hco]

/-- The metadata walk never reads the event_type field. -/
theorem dupMetadata_congr (q v w : JValue) :
    dupMetadata (.objCons "event_type" v q) = dupMetadata (.objCons "event_type" w q) := by
  have hmd : ("metadata" : String) ≠ "event_type" := by decide
  have hdata : ("data" : String) ≠ "event_type" := by decide
  have hco : ("checkout" : String) ≠ "event_type" := by decide
  simp [dupMetadata, walkPath, JValue.get, JValue.hasKey, JValue.isObj, hmd, hdata, hco]

/-- Truthiness under `some` unwraps. -/
theorem truthyOpt_some (v : JValue) : truthyOpt (some v) = v.truthy := rfl

/-- The fingerprint id, written out by branch. -/
theorem webhookIdOf_eq (p : JValue) :
    webhookIdOf p =
      if truthyOpt (explicitWebhookId p) = true then (explicitWebhookId p).getD .null
      else
        match compositeWebhookId p with
        | some w => if w.truthy = true then w else .str (md5Model (dumps p))
        | none => .str (md5Model (dumps p)) := by
  unfold webhookIdOf
  by_cases h : truthyOpt (explicitWebhookId p) = true
  · simp [h]
  · have hb : truthyOpt (explicitWebhookId p) = false := by
      simpa using h
    cases hc : compositeWebhookId p with
    | none => simp [hc, hb]
    | some w => simp [hc, hb, truthyOpt_some]

/-- Over two payloads that differ only in their leading event_type field,
the fingerprint ids are equal (explicit-id case), composite strings ending
in the respective event types, or digests of equal width. -/
theorem webhookIdOf_cases (q : JValue) (et1 et2 : String) :
    webhookIdOf (.objCons "event_type" (.str et1) q)
        = webhookIdOf (.objCons "event_type" (.str et2) q) ∨
    (∃ a b, webhookIdOf (.objCons "event_type" (.str et1) q) = .str (a ++ "_" ++ b ++ "_" ++ et1)
      ∧ webhookIdOf (.objCons "event_type" (.str et2) q) = .str (a ++ "_" ++ b ++ "_" ++ et2)) ∨
    (∃ s1 s2, webhookIdOf (.objCons "event_type" (.str et1) q) = .str s1
      ∧ webhookIdOf (.objCons "event_type" (.str et2) q) = .str s2
      ∧ s1.length = s2.length) := by
  have hE := explicitWebhookId_congr q (.str et1) (.str et2)
  have hM := dupMetadata_congr q (.str et1) (.str et2)
  by_cases hEt : truthyOpt (explicitWebhookId (.objCons "event_type" (.str et1) q)) = true
  · left
    rw [webhookIdOf_eq, webhookIdOf_eq, ← hE, if_pos hEt, if_pos hEt]
  · have hEt2 : ¬ truthyOpt (explicitWebhookId (.objCons "event_type" (.str et2) q)) = true :=
      hE ▸ hEt
    by_cases hcomp :
        truthyOpt ((dupMetadata (.objCons "event_type" (.str et1) q)).get "order_code") = true
        ∧ truthyOpt ((dupMetadata (.objCons "event_type" (.str et1) q)).get "payment_id") = true
    · right; left
      have hC1 : compositeWebhookId (.objCons "event_type" (.str et1) q)
          = some (.str
              (pyStr (((dupMetadata (.objCons "event_type" (.str et1) q)).get "order_code").getD .null)
                ++ "_"
                ++ pyStr (((dupMetadata (.objCons "event_type" (.str et1) q)).get "payment_id").getD .null)
                ++ "_" ++ et1)) := by
        simp only [compositeWebhookId, compositeWebhookId.optJ, dupEventType_objCons]
        rw [if_pos hcomp]
        simp [pyStr]
      have hC2 : compositeWebhookId (.objCons "event_type" (.str et2) q)
          = some (.str
              (pyStr (((dupMetadata (.objCons "event_type" (.str et1) q)).get "order_code").getD .null)
                ++ "_"
                ++ pyStr (((dupMetadata (.objCons "event_type" (.str et1) q)).get "payment_id").getD .null)
                ++ "_" ++ et2)) := by
        simp only [compositeWebhookId, compositeWebhookId.optJ, dupEventType_objCons, ← hM]
        rw [if_pos hcomp]
        simp [pyStr]
      refine ⟨pyStr (((dupMetadata (.objCons "event_type" (.str et1) q)).get "order_code").getD .null),
        pyStr (((dupMetadata (.objCons "event_type" (.str et1) q)).get "payment_id").getD .null),
        ?_, ?_⟩
      · rw [webhookIdOf_eq, if_neg hEt, hC1]
        simp [JValue.truthy, sep_append_not_empty]
      · rw [webhookIdOf_eq, if_neg hEt2, hC2]
        simp [JValue.truthy, sep_append_not_empty]
    · right; right
      have hC1 : compositeWebhookId (.objCons "event_type" (.str et1) q) = none := by
        simp only [compositeWebhookId, compositeWebhookId.optJ, dupEventType_objCons]
        rw [if_neg hcomp]
      have hC2 : compositeWebhookId (.objCons "event_type" (.str et2) q) = none := by
        simp only [compositeWebhookId, compositeWebhookId.optJ, dupEventType_objCons, ← hM]
        rw [if_neg hcomp]
      refine ⟨md5Model (dumps (.objCons "event_type" (.str et1) q)),
        md5Model (dumps (.objCons "event_type" (.str et2) q)), ?_, ?_, ?_⟩
      · rw [webhookIdOf_eq, if_neg hEt, hC1]
      · rw [webhookIdOf_eq, if_neg hEt2, hC2]
      · rw [md5Model_length, md5Model_length]

/-- C10: the duplicate-suppression cache key pairs the derived webhook id
with the event type, so two notifications identical except for their event
kind never collide on the cache key and are never suppressed as duplicates
of each other. -/
theorem c10_cache_key_pairs_id_with_event_type (q : JValue) (et1 et2 : String)
    (hne : et1 ≠ et2) :
    webhookCacheKey (.objCons "event_type" (.str et1) q)
      ≠ webhookCacheKey (.objCons "event_type" (.str et2) q) := by
  intro hkey
  unfold webhookCacheKey at hkey
  rw [dupEventType_objCons, dupEventType_objCons] at hkey
  simp only [pyStr] at hkey
  rcases webhookIdOf_cases q et1 et2 with heq | ⟨a, b, h1, h2⟩ | ⟨s1, s2, h1, h2, hlen⟩
  · rw [heq] at hkey
    exact hne (append_len_inj _ _ _ _ rfl hkey)
  · rw [h1, h2] at hkey
    simp only [pyStr] at hkey
    have hL := congrArg String.length hkey
    simp only [String.length_append] at hL
    have hlen2 : et1.length = et2.length := by omega
    refine hne (append_len_inj _ _ _ _ ?_ hkey)
    simp only [String.length_append]
    omega
  · rw [h1, h2] at hkey
    simp only [pyStr] at hkey
    refine hne (append_len_inj _ _ _ _ ?_ hkey)
    simp only [String.length_append]
    omega

/-- Witness for C10 on a failed and a succeeded notification carrying the
same payment id. -/
theorem c10_cache_key_pairs_id_with_event_type_witness :
    ("payment.failed" : String) ≠ "payment_intent.succeeded" ∧
    webhookCacheKey (.objCons "event_type" (.str "payment.failed")
        (.objCons "id" (.str "pa_1") .objNil))
      ≠ webhookCacheKey (.objCons "event_type" (.str "payment_intent.succeeded")
        (.objCons "id" (.str "pa_1") .objNil)) :=
  ⟨by decide,
   c10_cache_key_pairs_id_with_event_type (.objCons "id" (.str "pa_1") .objNil)
     "payment.failed" "payment_intent.succeeded" (by decide)⟩

/-! ## Claims C7 and C8: extraction priorities -/

/-- A key that is reported absent has no value. -/
theorem get_eq_none_of_hasKey_false (pl : JValue) (k : String) (h : pl.hasKey k = false) :
    pl.get k = none := by
  cases hg : pl.get k
  · rfl
  · rw [JValue.hasKey, hg] at h
    simp at h

/-- A truthy optional value is present. -/
theorem isSome_of_truthyOpt (o : Option JValue) (h : truthyOpt o = true) : o.isSome = true := by
  cases o
  · simp [truthyOpt] at h
  · rfl

/-- Counterexample to C7: a payload carrying both a top-level id and a
payment.id yields the payment.id, not the top-level id. -/
theorem c7_counterexample_payment_id_wins :
    (extract_recurrente_data
      (.objCons "id" (.str "pa_root")
        (.objCons "payment" (.objCons "id" (.str "pay_X") .objNil) .objNil))).external_payment_id
      = some (.str "pay_X") ∧
    (extract_recurrente_data
      (.objCons "id" (.str "pa_root")
        (.objCons "payment" (.objCons "id" (.str "pay_X") .objNil) .objNil))).external_payment_id
      ≠ some (.str "pa_root") := by
  constructor
  · decide
  · decide

/-- C7 (amended): the extractor consults `payment.id` first, then nested
`checkout.payment.id`, and falls back to the top-level `id` only when
neither yielded a truthy value; in particular a payload carrying both a
top-level `id` and a truthy `payment.id` extracts the `payment.id`. -/
theorem c7_payment_id_priority (pl : JValue) (hobj : pl.isObj = true) :
    (∀ pobj, pl.get "payment" = some pobj → pobj.isObj = true →
      truthyOpt (pobj.get "id") = true →
      (extract_recurrente_data pl).external_payment_id = pobj.get "id") ∧
    (∀ cobj cpay, pl.hasKey "payment" = false → pl.get "checkout" = some cobj →
      cobj.truthy = true → cobj.isObj = true → cobj.get "payment" = some cpay →
      cpay.isObj = true → truthyOpt (cpay.get "id") = true →
      (extract_recurrente_data pl).external_payment_id = cpay.get "id") ∧
    (pl.hasKey "payment" = false → pl.hasKey "checkout" = false →
      (extract_recurrente_data pl).external_payment_id
        = if pl.hasKey "id" = true then pl.get "id" else none) := by
  refine ⟨?_, ?_, ?_⟩
  · intro pobj hp hpo hid
    have hsome : (pobj.get "id").isSome = true := isSome_of_truthyOpt _ hid
    simp [extract_recurrente_data, hobj, hp, hpo, JValue.hasKey, hsome, hid]
  · intro cobj cpay hpk hc hct hco hcp hcpo hid
    have hpnone : pl.get "payment" = none := get_eq_none_of_hasKey_false pl "payment" hpk
    have hsome : (cpay.get "id").isSome = true := isSome_of_truthyOpt _ hid
    have e1 : JValue.objNil.get "id" = none := rfl
    simp [extract_recurrente_data, hobj, hpnone, hc, hct, hco, hcp, hcpo,
      JValue.hasKey, hsome, hid, e1]
  · intro hpk hck
    have hpnone : pl.get "payment" = none := get_eq_none_of_hasKey_false pl "payment" hpk
    have hcnone : pl.get "checkout" = none := get_eq_none_of_hasKey_false pl "checkout" hck
    have e1 : JValue.objNil.get "id" = none := rfl
    have e2 : JValue.objNil.truthy = false := rfl
    have e4 : truthyOpt none = false := rfl
    by_cases hid : pl.hasKey "id" = true
    · simp [extract_recurrente_data, hobj, hpnone, hcnone, JValue.hasKey, e1, e2, e4, hid]
    · simp [extract_recurrente_data, hobj, hpnone, hcnone, JValue.hasKey, e1, e2, e4, hid]

/-- Witness for C7 on the three chain positions. -/
theorem c7_payment_id_priority_witness :
    (extract_recurrente_data
        (.objCons "id" (.str "pa_root")
          (.objCons "payment" (.objCons "id" (.str "pay_X") .objNil) .objNil))).external_payment_id
      = some (.str "pay_X") ∧
    (extract_recurrente_data
        (.objCons "checkout"
          (.objCons "payment" (.objCons "id" (.str "pay_Y") .objNil) .objNil)
          .objNil)).external_payment_id
      = some (.str "pay_Y") ∧
    (extract_recurrente_data
        (.objCons "id" (.str "pa_root") .objNil)).external_payment_id
      = some (.str "pa_root") := by
  refine ⟨?_, ?_, ?_⟩
  · exact (c7_payment_id_priority
      (.objCons "id" (.str "pa_root")
        (.objCons "payment" (.objCons "id" (.str "pay_X") .objNil) .objNil)) (by decide)).1
      (.objCons "id" (.str "pay_X") .objNil) (by decide) (by decide) (by decide)
  · exact (c7_payment_id_priority
      (.objCons "checkout"
        (.objCons "payment" (.objCons "id" (.str "pay_Y") .objNil) .objNil) .objNil)
      (by decide)).2.1
      (.objCons "payment" (.objCons "id" (.str "pay_Y") .objNil) .objNil)
      (.objCons "id" (.str "pay_Y") .objNil)
      (by decide) (by decide) (by decide) (by decide) (by decide) (by decide) (by decide)
  · have h := (c7_payment_id_priority (.objCons "id" (.str "pa_root") .objNil) (by decide)).2.2
      (by decide) (by decide)
    simpa using h

/-- Counterexample to C8: a payload whose only metadata dict sits at
`payment.metadata` (or at `data.metadata`) yields no order code at all. -/
theorem c8_counterexample_payment_metadata_ignored :
    (extract_recurrente_data
      (.objCons "payment"
        (.objCons "metadata" (.objCons "order_code" (.str "ABC12") .objNil) .objNil)
        .objNil)).order_code = none ∧
    (extract_recurrente_data
      (.objCons "data"
        (.objCons "metadata" (.objCons "order_code" (.str "ABC12") .objNil) .objNil)
        .objNil)).order_code = none := by
  constructor
  · decide
  · decide

/-- C8 (amended): the extractor searches only `checkout.metadata` and then
the top-level `metadata` for the order-correlation object; when neither is
present the order code is absent, whatever sits at `payment.metadata` or
`data.metadata`. -/
theorem c8_metadata_search_paths (pl : JValue) (hobj : pl.isObj = true) :
    (∀ cobj md, pl.get "checkout" = some cobj → cobj.truthy = true → cobj.isObj = true →
      cobj.get "metadata" = some md → md.truthy = true → md.isObj = true →
      (extract_recurrente_data pl).order_code = md.get "order_code") ∧
    (∀ md, pl.hasKey "checkout" = false → pl.get "metadata" = some md →
      md.truthy = true → md.isObj = true →
      (extract_recurrente_data pl).order_code = md.get "order_code") ∧
    (pl.hasKey "checkout" = false → pl.hasKey "metadata" = false →
      (extract_recurrente_data pl).order_code = none) := by
  refine ⟨?_, ?_, ?_⟩
  · intro cobj md hc hct hco hcm hmt hmo
    have hsome : (cobj.get "metadata").isSome = true := by rw [hcm]; rfl
    simp [extract_recurrente_data, hobj, hc, hct, hco, hcm, hmt, hmo, JValue.hasKey, hsome]
  · intro md hck hm hmt hmo
    have hcnone : pl.get "checkout" = none := get_eq_none_of_hasKey_false pl "checkout" hck
    have hsome : (pl.get "metadata").isSome = true := by rw [hm]; rfl
    have e2 : JValue.objNil.truthy = false := rfl
    simp [extract_recurrente_data, hobj, hcnone, hm, hmt, hmo, JValue.hasKey, hsome, e2]
  · intro hck hmk
    have hcnone : pl.get "checkout" = none := get_eq_none_of_hasKey_false pl "checkout" hck
    have hmnone : pl.get "metadata" = none := get_eq_none_of_hasKey_false pl "metadata" hmk
    have e2 : JValue.objNil.truthy = false := rfl
    simp [extract_recurrente_data, hobj, hcnone, hmnone, JValue.hasKey, e2]

/-- Witness for C8 on the two probed positions and the miss case. -/
theorem c8_metadata_search_paths_witness :
    (extract_recurrente_data
        (.objCons "checkout"
          (.objCons "metadata" (.objCons "order_code" (.str "AAA11") .objNil) .objNil)
          .objNil)).order_code = some (.str "AAA11") ∧
    (extract_recurrente_data
        (.objCons "metadata" (.objCons "order_code" (.str "BBB22") .objNil)
          .objNil)).order_code = some (.str "BBB22") ∧
    (extract_recurrente_data
        (.objCons "payment"
          (.objCons "metadata" (.objCons "order_code" (.str "CCC33") .objNil) .objNil)
          .objNil)).order_code = none := by
  refine ⟨?_, ?_, ?_⟩
  · exact (c8_metadata_search_paths
      (.objCons "checkout"
        (.objCons "metadata" (.objCons "order_code" (.str "AAA11") .objNil) .objNil) .objNil)
      (by decide)).1
      (.objCons "metadata" (.objCons "order_code" (.str "AAA11") .objNil) .objNil)
      (.objCons "order_code" (.str "AAA11") .objNil)
      (by decide) (by decide) (by decide) (by decide) (by decide) (by decide)
  · exact (c8_metadata_search_paths
      (.objCons "metadata" (.objCons "order_code" (.str "BBB22") .objNil) .objNil)
      (by decide)).2.1
      (.objCons "order_code" (.str "BBB22") .objNil)
      (by decide) (by decide) (by decide) (by decide)
  · exact (c8_metadata_search_paths
      (.objCons "payment"
        (.objCons "metadata" (.objCons "order_code" (.str "CCC33") .objNil) .objNil) .objNil)
      (by decide)).2.2 (by decide) (by decide)

/-! ## Claim C1: is Confirmed absorbing for failed notifications? -/

/-- Counterexample to C1: a failed notification attributed by the locator
to a Confirmed payment moves it out of Confirmed: the endpoint answers 200
and the payment ends Failed. -/
theorem c1_counterexample_confirmed_overwritten :
    (webhook sampleConfirmedState sampleFailedPayload true).1 = 200 ∧
    ((webhook sampleConfirmedState sampleFailedPayload true).2.payments.map Payment.state)
      = [.failed] := by
  constructor
  · decide
  · decide

/-- C1 (amended): in the failed/expired branch only an already-Failed
payment is left untouched; any located payment in another state — a
Confirmed one included — is overwritten to Failed, with HTTP 200. -/
theorem c1_failed_branch_overwrites (st : SState) (payload : JValue) (ok : Bool) (p : Payment)
    (h1 : truthyOpt (extract_recurrente_data payload).order_code = true)
    (h2 : truthyOpt (cacheGet st.cache (webhookCacheKey payload)) = false)
    (h3 : st.orders.contains (pyStr (optToJ (extract_recurrente_data payload).order_code)) = true)
    (h4 : (extract_recurrente_data payload).event_type = some (.str "payment.failed")
      ∨ (extract_recurrente_data payload).event_type = some (.str "checkout.expired")
      ∨ (extract_recurrente_data payload).event_type = some (.str "payment_intent.payment_failed"))
    (h5 : locateFailed
        (recPaymentsOf st.payments (pyStr (optToJ (extract_recurrente_data payload).order_code)))
        (JValue.objNil.get "id") = some p)
    (h6 : ¬ p.state = .failed) :
    (webhook st payload ok).1 = 200 ∧
    (webhook st payload ok).2.payments
      = savePayment st.payments
          (Payment.mk p.pk p.order p.provider .failed p.created
            (failedInfoUpdate p.infoData (JValue.objNil.get "id") none
              (optToJ (extract_recurrente_data payload).failure_reason)
              (extract_recurrente_data payload).event_type)) := by
  have hdup : is_webhook_already_processed st.cache payload
      = (false, cacheSet st.cache (webhookCacheKey payload) (.jbool true)) := by
    rw [is_webhook_already_processed_eq, if_neg (by simp [h2])]
  have hns : ¬ ((extract_recurrente_data payload).event_type
        = some (.str "payment_intent.succeeded")
      ∨ (extract_recurrente_data payload).event_type = some (.str "checkout.completed")) := by
    rcases h4 with h | h | h <;> rw [h] <;> decide
  have hfs : (extract_recurrente_data payload).event_type = some (.str "payment.failed")
      ∨ (extract_recurrente_data payload).event_type = some (.str "checkout.expired")
      ∨ (extract_recurrente_data payload).event_type
          = some (.str "payment_intent.payment_failed") := h4
  simp only [webhook, hdup]
  rw [if_neg (by simp [h1])]
  simp only [if_false, Bool.false_eq_true, reduceIte]
  rw [if_neg (by simpa using h3)]
  rw [if_neg hns, if_pos hfs, h5]
  simp [h6]

/-- Witness for C1 at the confirmed payment of the concrete scenario. -/
theorem c1_failed_branch_overwrites_witness :
    (webhook sampleConfirmedState sampleFailedPayload true).1 = 200 ∧
    (webhook sampleConfirmedState sampleFailedPayload true).2.payments
      = savePayment sampleConfirmedState.payments
          (Payment.mk sampleConfirmedPayment.pk sampleConfirmedPayment.order
            sampleConfirmedPayment.provider .failed sampleConfirmedPayment.created
            (failedInfoUpdate sampleConfirmedPayment.infoData (JValue.objNil.get "id") none
              (optToJ (extract_recurrente_data sampleFailedPayload).failure_reason)
              (extract_recurrente_data sampleFailedPayload).event_type)) :=
  c1_failed_branch_overwrites sampleConfirmedState sampleFailedPayload true
    sampleConfirmedPayment (by decide) (by decide) (by decide) (by decide) (by decide)
    (by decide)

/-! ## Claim C2: quota exhaustion during a succeeded notification -/

/-- Counterexample to C2: when the host confirm raises insufficient
capacity, the tenant-scoped endpoint answers 500 — not 200 — although the
payment is indeed left in its prior state. -/
theorem c2_counterexample_quota_returns_500 :
    (webhook sampleState samplePayload false).1 = 500 ∧
    (webhook sampleState samplePayload false).1 ≠ 200 ∧
    ((webhook sampleState samplePayload false).2.payments.map Payment.state) = [.pending] := by
  refine ⟨?_, ?_, ?_⟩
  · decide
  · decide
  · decide

/-- Merging two saves of the same row. -/
theorem savePayment_twice (l : List Payment) (p1 p2 : Payment) (h : p1.pk = p2.pk) :
    savePayment (savePayment l p1) p2 = savePayment l p2 := by
  unfold savePayment
  rw [List.map_map]
  apply List.map_congr_left
  intro q _
  by_cases hq : q.pk = p1.pk
  · simp [hq, h, h ▸ hq]
  · simp [hq, h ▸ hq]

/-- The duplicate-suppression key and the confirmation-lock key live in
disjoint namespaces: they differ within their fixed prefixes. -/
theorem dupKey_ne_lockKey (payload : JValue) (p : Payment) :
    webhookCacheKey payload ≠ lockKeyOf p := by
  intro h
  have hd : ("recurrente_webhook_processed_" : String).data
        ++ ((pyStr (webhookIdOf payload)).data
          ++ (("_" : String).data ++ (pyStr (dupEventType payload)).data))
      = ("recurrente_payment_confirmation_lock_" : String).data
        ++ (toString p.pk).data := by
    have hc := congrArg String.data h
    simp only [webhookCacheKey, lockKeyOf, String.data_append, List.append_assoc] at hc
    exact hc
  have ht := congrArg (List.take 12) hd
  rw [List.take_append_of_le_length (by decide),
    List.take_append_of_le_length (by decide)] at ht
  exact absurd ht (by decide)

/-- A failing host confirm leaves the state and key of the record alone and
reports failure (utils.py lines 813-829). -/
theorem safe_confirm_quota_fail (c : Cache) (q : Payment) (pid : Option JValue)
    (hst : q.state = .pending ∨ q.state = .created)
    (hl : cacheGet c (lockKeyOf q) = none) :
    (safe_confirm_payment c q pid false).1 = false ∧
    (safe_confirm_payment c q pid false).2.1.state = q.state ∧
    (safe_confirm_payment c q pid false).2.1.pk = q.pk := by
  have hnc : ¬ q.state = .confirmed := by
    rcases hst with h | h <;> rw [h] <;> decide
  unfold safe_confirm_payment
  simp [hnc, hst, cacheAdd, hl]

/-- C2 (amended): when the host confirm primitive signals insufficient
capacity during a succeeded notification, the payment is left in its prior
Pending state, but the tenant-scoped endpoint answers 500 — an error the
gateway will retry — not 200. -/
theorem c2_quota_blocked_returns_500 (st : SState) (payload : JValue) (p : Payment)
    (h1 : truthyOpt (extract_recurrente_data payload).order_code = true)
    (h2 : truthyOpt (cacheGet st.cache (webhookCacheKey payload)) = false)
    (h3 : st.orders.contains (pyStr (optToJ (extract_recurrente_data payload).order_code)) = true)
    (h4 : (extract_recurrente_data payload).event_type = some (.str "payment_intent.succeeded")
      ∨ (extract_recurrente_data payload).event_type = some (.str "checkout.completed"))
    (h5 : locateSucceeded
        (recPaymentsOf st.payments (pyStr (optToJ (extract_recurrente_data payload).order_code)))
        (JValue.objNil.get "id") none = some p)
    (h6 : p.state = .pending)
    (hlock : cacheGet st.cache (lockKeyOf p) = none) :
    (webhook st payload false).1 = 500 ∧
    ∃ p2, (webhook st payload false).2.payments = savePayment st.payments p2
      ∧ p2.pk = p.pk ∧ p2.state = .pending := by
  have hdup : is_webhook_already_processed st.cache payload
      = (false, cacheSet st.cache (webhookCacheKey payload) (.jbool true)) := by
    rw [is_webhook_already_processed_eq, if_neg (by simp [h2])]
  have hncp : ¬ p.state = .confirmed := by rw [h6]; decide
  set p1 : Payment := Payment.mk p.pk p.order p.provider p.state p.created
    (succeededInfoUpdate p.infoData (JValue.objNil.get "id") none
      (extract_recurrente_data payload).event_type payload) with hp1
  have hlk1 : lockKeyOf p1 = lockKeyOf p := rfl
  have h7 : cacheGet (cacheSet st.cache (webhookCacheKey payload) (.jbool true))
      (lockKeyOf p1) = none := by
    rw [hlk1, cacheGet_cacheSet_other _ _ _ _ (Ne.symm (dupKey_ne_lockKey payload p)), hlock]
  have hconf := safe_confirm_quota_fail
    (cacheSet st.cache (webhookCacheKey payload) (.jbool true)) p1 none
    (Or.inl (by simpa [hp1] using h6)) h7
  simp only [webhook, hdup]
  rw [if_neg (by simp [h1])]
  simp only [if_false, Bool.false_eq_true, reduceIte]
  rw [if_neg (by simpa using h3)]
  rw [if_pos h4, h5]
  dsimp only
  rw [if_neg hncp]
  rw [if_neg (by simp [hconf.1])]
  refine ⟨rfl, (safe_confirm_payment
      (cacheSet st.cache (webhookCacheKey payload) (.jbool true)) p1 none false).2.1, ?_, ?_, ?_⟩
  · exact savePayment_twice st.payments p1 _ hconf.2.2.symm
  · exact hconf.2.2
  · rw [hconf.2.1]
    simpa [hp1] using h6

/-- Witness for C2 at the concrete pending payment. -/
theorem c2_quota_blocked_returns_500_witness :
    (webhook sampleState samplePayload false).1 = 500 ∧
    ∃ p2, (webhook sampleState samplePayload false).2.payments
        = savePayment sampleState.payments p2
      ∧ p2.pk = samplePendingPayment.pk ∧ p2.state = .pending :=
  c2_quota_blocked_returns_500 sampleState samplePayload samplePendingPayment
    (by decide) (by decide) (by decide) (by decide) (by decide) (by decide) (by decide)

/-! ## Claim C3: redelivery of the same notification -/

/-- `safe_confirm_payment` touches no cache key other than its own lock. -/
theorem safe_confirm_cache_preserves (c : Cache) (q : Payment) (pid : Option JValue) (ok : Bool)
    (k : String) (hk : k ≠ lockKeyOf q) :
    cacheGet (safe_confirm_payment c q pid ok).2.2 k = cacheGet c k := by
  unfold safe_confirm_payment
  by_cases h1 : q.state = .confirmed
  · simp [h1]
  · by_cases h2 : q.state = .pending ∨ q.state = .created
    · cases hadd : cacheGet c (lockKeyOf q) with
      | some v => simp [h1, h2, cacheAdd, hadd]
      | none =>
          have hstep :
              cacheGet (cacheDel ((lockKeyOf q, JValue.str "locked") :: c) (lockKeyOf q)) k
                = cacheGet c k := by
            rw [cacheGet_cacheDel_other _ _ _ hk]
            simp [cacheGet, Ne.symm hk]
          cases ok <;> simp [h1, h2, cacheAdd, hadd, hstep]
    · simp [h1, h2]

/-- A delivery whose fingerprint is already cached is acknowledged with 200
and changes nothing. -/
theorem webhook_dup_short_circuit (st : SState) (payload : JValue) (ok : Bool)
    (h1 : truthyOpt (extract_recurrente_data payload).order_code = true)
    (h2 : truthyOpt (cacheGet st.cache (webhookCacheKey payload)) = true) :
    webhook st payload ok = (200, st) := by
  have hdup : is_webhook_already_processed st.cache payload = (true, st.cache) := by
    rw [is_webhook_already_processed_eq, if_pos h2]
  simp only [webhook, hdup]
  rw [if_neg (by simp [h1])]
  rfl

/-- After any delivery that passes the order-code check, the fingerprint is
cached: every branch of the view preserves the entry the duplicate check
just wrote. -/
theorem webhook_marks_processed (st : SState) (payload : JValue) (ok : Bool)
    (h1 : truthyOpt (extract_recurrente_data payload).order_code = true) :
    truthyOpt (cacheGet (webhook st payload ok).2.cache (webhookCacheKey payload)) = true := by
  by_cases h2 : truthyOpt (cacheGet st.cache (webhookCacheKey payload)) = true
  · rw [webhook_dup_short_circuit st payload ok h1 h2]
    exact h2
  · have hdup : is_webhook_already_processed st.cache payload
        = (false, cacheSet st.cache (webhookCacheKey payload) (.jbool true)) := by
      rw [is_webhook_already_processed_eq, if_neg h2]
    have hset : truthyOpt (cacheGet (cacheSet st.cache (webhookCacheKey payload) (.jbool true))
        (webhookCacheKey payload)) = true := by
      rw [cacheGet_cacheSet_self]
      rfl
    simp only [webhook, hdup]
    rw [if_neg (by simp [h1])]
    rw [if_neg (by simp : ¬ (false, cacheSet st.cache (webhookCacheKey payload)
      (JValue.jbool true)).1 = true)]
    repeat' split
    all_goals
      first
        | exact hset
        | (dsimp only
           rw [safe_confirm_cache_preserves _ _ _ _ _ (dupKey_ne_lockKey payload _)]
           exact hset)

/-- Counterexample to C3: when the first processing fails (host confirm
raises), the first delivery is answered 500, and across N = 2 deliveries
the located payment undergoes no state transition at all — not exactly
one, and not HTTP 200 on every delivery. -/
theorem c3_counterexample_failed_first_delivery :
    (webhook sampleState samplePayload false).1 ≠ 200 ∧
    (webhook (webhook sampleState samplePayload false).2 samplePayload false).1 = 200 ∧
    ((webhook (webhook sampleState samplePayload false).2 samplePayload false).2.payments.map
      Payment.state) = [.pending] := by
  refine ⟨by decide, by decide, by decide⟩

/-- C3 (amended): once a delivery has passed the order-code check, its
fingerprint is cached, and every redelivery of the same payload is a fixed
point: it is answered 200 and leaves the server state unchanged — so at
most one delivery can transition the located payment, and redeliveries
after a successful first delivery perform no further transition.  The
first delivery itself need not be answered 200. -/
theorem c3_redelivery_suppressed (st : SState) (payload : JValue) (ok1 ok2 : Bool)
    (h : truthyOpt (extract_recurrente_data payload).order_code = true) :
    webhook (webhook st payload ok1).2 payload ok2 = (200, (webhook st payload ok1).2) :=
  webhook_dup_short_circuit _ _ _ h (webhook_marks_processed st payload ok1 h)

/-- Witness for C3 at the concrete scenario with a successful first
delivery. -/
theorem c3_redelivery_suppressed_witness :
    truthyOpt (extract_recurrente_data samplePayload).order_code = true ∧
    webhook (webhook sampleState samplePayload true).2 samplePayload true
      = (200, (webhook sampleState samplePayload true).2) :=
  ⟨by decide, c3_redelivery_suppressed sampleState samplePayload true true (by decide)⟩

/-- C6 counterexample companion: the failed first delivery of the concrete
scenario is recorded as processed — its redelivery is short-circuited as a
duplicate even though processing failed with 500. -/
theorem c6_counterexample_failure_recorded :
    (webhook sampleState samplePayload false).1 = 500 ∧
    (is_webhook_already_processed
      (webhook sampleState samplePayload false).2.cache samplePayload).1 = true ∧
    webhook (webhook sampleState samplePayload false).2 samplePayload false
      = (200, (webhook sampleState samplePayload false).2) := by
  refine ⟨by decide, by decide, by decide⟩
